import Mathlib

/-!
Verification of the CSRT object-tracking playback example (src/main.cpp)
against its natural-language specification.

The development shallowly embeds the parts of the program the claims
depend on: the per-tracker lifecycle step of show_video (lines 240-262),
the rendering guard (lines 264-271), the progress-report guard (line 216),
the frame-pacing arithmetic (lines 97-98 and 200/304), the resize-factor
computation of initialize_video (lines 107-127), the exit-code selection
of main (lines 312-350), and the seek behaviour of get_first_frame
(lines 134-149).  Machine doubles that only ever hold exactly
representable small values (rectangle coordinates, scale factors) are
modelled as rationals; size_t counters as Nat; cv int dimensions as Int.
-/

namespace CSRTExample

/-- cv::Scalar colour value (BGR). -/
structure Scalar where
  b : ℚ
  g : ℚ
  r : ℚ
deriving DecidableEq

/-- cv::Rect2d: a rectangle with double coordinates, modelled over ℚ. -/
structure Rect2d where
  x : ℚ
  y : ℚ
  w : ℚ
  h : ℚ
deriving DecidableEq

/-- The sentinel rectangle cv::Rect2d(-1.0, -1.0, -1.0, -1.0) that
show_video stores into a tracker whose update failed (line 253). -/
def sentinelRect : Rect2d := ⟨-1, -1, -1, -1⟩

/-- struct ObjectTracker (main.cpp lines 11-39), minus the opaque
cv::Tracker handle, whose behaviour is abstracted as the per-frame update
result fed to updateTracker. -/
structure ObjectTracker where
  is_valid : Bool
  name : String
  colour : Scalar
  rect : Rect2d
  last_valid : Nat
deriving DecidableEq

/-- fps_rounded = std::round(fps) stored into a size_t
(initialize_video, line 89). -/
def fpsRounded (fps : ℚ) : Nat := (round fps).toNat

/-- Body of the per-tracker update step of show_video (lines 240-262).
The opaque call tracker->update(mat, ot.rect) is abstracted by
result : Option Rect2d (some r = update succeeded and wrote box r,
none = update failed).  A tracker with is_valid = false is skipped
entirely by the guard on line 242. -/
def updateTracker (fps_rounded frame_counter : Nat) (result : Option Rect2d)
    (ot : ObjectTracker) : ObjectTracker :=
  if ot.is_valid then
    match result with
    | some r => { ot with rect := r, last_valid := frame_counter }
    | none =>
      let missed := { ot with rect := sentinelRect }
      if frame_counter > ot.last_valid + fps_rounded * 3 then
        { missed with is_valid := false }
      else
        missed
  else
    ot

/-- k consecutive failing updates at frame indices L+1, L+2, ..., L+k,
applied after a success at frame L. -/
def consecFails (fps_rounded L k : Nat) (ot : ObjectTracker) : ObjectTracker :=
  (List.range k).foldl (fun s j => updateTracker fps_rounded (L + 1 + j) none s) ot

/-- An arbitrary sequence of later update steps, each given by a frame
index and an update result; models any continuation of the playback loop. -/
def runUpdates (fps_rounded : Nat) (steps : List (Nat × Option Rect2d))
    (ot : ObjectTracker) : ObjectTracker :=
  steps.foldl (fun s p => updateTracker fps_rounded p.1 p.2 s) ot

/-- The tracker-update loop over all trackers for one frame (lines 240-262);
results gives each tracker its own update outcome by position. -/
def updateAllTrackers (fps_rounded frame_counter : Nat) (results : Nat → Option Rect2d)
    (ots : List ObjectTracker) : List ObjectTracker :=
  ots.mapIdx fun idx ot => updateTracker fps_rounded frame_counter (results idx) ot

/-- The rendering loop (lines 264-271): a rectangle is drawn for exactly
those trackers whose last_valid equals the current frame counter. -/
def drawnThisFrame (frame_counter : Nat) (ots : List ObjectTracker) : List ObjectTracker :=
  ots.filter fun ot => ot.last_valid == frame_counter

/-- One frame of tracker processing: update all trackers, then compute the
list of trackers whose rectangle is drawn onto the frame. -/
def processFrame (fps_rounded frame_counter : Nat) (results : Nat → Option Rect2d)
    (ots : List ObjectTracker) : List ObjectTracker × List ObjectTracker :=
  let updated := updateAllTrackers fps_rounded frame_counter results ots
  (updated, drawnThisFrame frame_counter updated)

/-- A concrete active tracker with last_valid = 10, used for scenario
instantiations. -/
def demoTracker : ObjectTracker :=
  { is_valid := true, name := "p1", colour := ⟨0, 0, 255⟩
    rect := ⟨1, 2, 3, 4⟩, last_valid := 10 }

/-- A concrete tracker already in the Lost state. -/
def lostTracker : ObjectTracker :=
  { is_valid := false, name := "ball", colour := ⟨0, 255, 0⟩
    rect := sentinelRect, last_valid := 7 }

/- ------------------------------------------------------------------ -/
/- Helper lemmas about a single update step.                           -/
/- ------------------------------------------------------------------ -/

theorem updateTracker_of_not_valid (fps_rounded frame_counter : Nat)
    (result : Option Rect2d) (ot : ObjectTracker) (hv : ot.is_valid = false) :
    updateTracker fps_rounded frame_counter result ot = ot := by
  simp [updateTracker, hv]

theorem updateTracker_fail_keep (fps_rounded frame_counter : Nat) (ot : ObjectTracker)
    (hv : ot.is_valid = true)
    (hle : frame_counter ≤ ot.last_valid + fps_rounded * 3) :
    updateTracker fps_rounded frame_counter none ot = { ot with rect := sentinelRect } := by
  simp [updateTracker, hv, Nat.not_lt.mpr hle]

theorem updateTracker_fail_lost (fps_rounded frame_counter : Nat) (ot : ObjectTracker)
    (hv : ot.is_valid = true)
    (hgt : ot.last_valid + fps_rounded * 3 < frame_counter) :
    updateTracker fps_rounded frame_counter none ot
      = { ot with rect := sentinelRect, is_valid := false } := by
  simp [updateTracker, hv, hgt]

theorem consecFails_succ (fps_rounded L k : Nat) (ot : ObjectTracker) :
    consecFails fps_rounded L (k + 1) ot
      = updateTracker fps_rounded (L + 1 + k) none (consecFails fps_rounded L k ot) := by
  simp [consecFails, List.range_succ]

theorem consecFails_within_grace (fps_rounded L k : Nat) (ot : ObjectTracker)
    (hv : ot.is_valid = true) (hl : ot.last_valid = L)
    (hk : k ≤ fps_rounded * 3) :
    (consecFails fps_rounded L k ot).is_valid = true
      ∧ (consecFails fps_rounded L k ot).last_valid = L := by
  induction k with
  | zero => simpa [consecFails] using ⟨hv, hl⟩
  | succ n ih =>
    obtain ⟨h1, h2⟩ := ih (Nat.le_of_succ_le hk)
    rw [consecFails_succ]
    have hle : L + 1 + n ≤ (consecFails fps_rounded L n ot).last_valid + fps_rounded * 3 := by
      rw [h2]; omega
    rw [updateTracker_fail_keep fps_rounded (L + 1 + n) _ h1 hle]
    exact ⟨h1, h2⟩

/- ------------------------------------------------------------------ -/
/- C1                                                                  -/
/- ------------------------------------------------------------------ -/

/-- Claim C1: an Active tracked object whose update fails at frame index i
transitions to Lost exactly when i - last_seen > grace_period_frames,
with grace_period_frames = round(fps) * 3; failing for exactly
grace_period_frames consecutive frames after the last success at L keeps
it Active, and one further failing frame makes it Lost. -/
theorem active_to_lost_iff_grace_exceeded (fps : ℚ) (hfps : 0 < fps)
    (ot : ObjectTracker) (L i : Nat)
    (hv : ot.is_valid = true) (hl : ot.last_valid = L) :
    (((updateTracker (fpsRounded fps) i none ot).is_valid = false)
        ↔ i - L > fpsRounded fps * 3)
    ∧ (consecFails (fpsRounded fps) L (fpsRounded fps * 3) ot).is_valid = true
    ∧ (consecFails (fpsRounded fps) L (fpsRounded fps * 3 + 1) ot).is_valid = false := by
  have hiff : ((updateTracker (fpsRounded fps) i none ot).is_valid = false)
      ↔ i - L > fpsRounded fps * 3 := by
    by_cases hgt : ot.last_valid + fpsRounded fps * 3 < i
    · rw [updateTracker_fail_lost _ _ _ hv hgt]
      subst hl
      simpa using by omega
    · rw [updateTracker_fail_keep _ _ _ hv (Nat.not_lt.mp hgt)]
      subst hl
      simpa [hv] using by omega
  refine ⟨hiff, (consecFails_within_grace _ _ _ _ hv hl le_rfl).1, ?_⟩
  obtain ⟨h1, h2⟩ := consecFails_within_grace (fpsRounded fps) L (fpsRounded fps * 3) ot hv hl le_rfl
  rw [consecFails_succ]
  have hgt : (consecFails (fpsRounded fps) L (fpsRounded fps * 3) ot).last_valid
      + fpsRounded fps * 3 < L + 1 + fpsRounded fps * 3 := by
    rw [h2]; omega
  rw [updateTracker_fail_lost _ _ _ h1 hgt]

/-- Witness for C1 at fps = 30, an active tracker with last_valid = 10,
and a failing update at frame index 101. -/
theorem active_to_lost_iff_grace_exceeded_witness :
    (((updateTracker (fpsRounded 30) 101 none demoTracker).is_valid = false)
        ↔ 101 - 10 > fpsRounded 30 * 3)
    ∧ (consecFails (fpsRounded 30) 10 (fpsRounded 30 * 3) demoTracker).is_valid = true
    ∧ (consecFails (fpsRounded 30) 10 (fpsRounded 30 * 3 + 1) demoTracker).is_valid = false :=
  active_to_lost_iff_grace_exceeded 30 (by norm_num) demoTracker 10 101 rfl rfl

/- ------------------------------------------------------------------ -/
/- C2                                                                  -/
/- ------------------------------------------------------------------ -/

/-- Counterexample to claim C2: with last_valid = 10 and fps_rounded = 30
(grace_period_frames = 90), the failed update at frame index 101 already
sets is_valid to false, so the object is NOT still Active at frame 101 as
the claim states (101 > 10 + 90). -/
theorem lost_already_at_frame_101 :
    (updateTracker 30 101 none demoTracker).is_valid = false := by decide

/-- Claim C2 as amended: with last_seen_frame_index = 10 and
grace_period_frames = 90 (fps = 30), the object is still Active after the
failed update at current frame index 100, and transitions to Lost at
current frame index 101. -/
theorem active_at_100_lost_at_101 :
    ((updateTracker 30 100 none demoTracker).is_valid = true)
    ∧ ((updateTracker 30 101 none (updateTracker 30 100 none demoTracker)).is_valid
        = false) := by decide

/- ------------------------------------------------------------------ -/
/- C3                                                                  -/
/- ------------------------------------------------------------------ -/

/-- Claim C3: Lost is terminal.  Once a tracked object has is_valid =
false, any sequence of later frame steps leaves it completely unchanged:
it is never updated again, its bounding box and last_valid never change,
and it never returns to Active. -/
theorem lost_is_terminal (fps_rounded : Nat) (steps : List (Nat × Option Rect2d))
    (ot : ObjectTracker) (hv : ot.is_valid = false) :
    runUpdates fps_rounded steps ot = ot := by
  induction steps with
  | nil => rfl
  | cons p rest ih =>
    have hstep : updateTracker fps_rounded p.1 p.2 ot = ot :=
      updateTracker_of_not_valid _ _ _ _ hv
    calc runUpdates fps_rounded (p :: rest) ot
        = runUpdates fps_rounded rest (updateTracker fps_rounded p.1 p.2 ot) := rfl
      _ = runUpdates fps_rounded rest ot := by rw [hstep]
      _ = ot := ih

/-- Witness for C3: a concrete lost tracker is untouched by a concrete
run of two further frames, one of them a successful update. -/
theorem lost_is_terminal_witness :
    runUpdates 30 [(8, some ⟨5, 5, 2, 2⟩), (9, none)] lostTracker = lostTracker :=
  lost_is_terminal 30 [(8, some ⟨5, 5, 2, 2⟩), (9, none)] lostTracker rfl

/- ------------------------------------------------------------------ -/
/- C4                                                                  -/
/- ------------------------------------------------------------------ -/

/-- Claim C4: on a playback frame, a tracked object is drawn onto the
displayed frame if and only if its last_valid (last_seen_frame_index)
equals the current frame index, where membership is taken in the tracker
list resulting from this frame's update step. -/
theorem drawn_iff_last_valid_eq_frame (fps_rounded frame_counter : Nat)
    (results : Nat → Option Rect2d) (ots : List ObjectTracker) (ot : ObjectTracker) :
    ot ∈ (processFrame fps_rounded frame_counter results ots).2
      ↔ (ot ∈ (processFrame fps_rounded frame_counter results ots).1
          ∧ ot.last_valid = frame_counter) := by
  simp [processFrame, drawnThisFrame, List.mem_filter]

/- ------------------------------------------------------------------ -/
/- C5                                                                  -/
/- ------------------------------------------------------------------ -/

/-- length_of_each_frame_in_nanoseconds = std::round(1000000000.0 / fps)
(initialize_video, line 97); frame_duration is this many nanoseconds. -/
def frameDurationNanos (fps : ℚ) : ℤ := round ((1000000000 : ℚ) / fps)

/-- The presentation deadline of show_video after n displayed frames with
no pause: time_to_show_next_frame starts at now (line 200) and each
iteration executes time_to_show_next_frame += frame_duration (line 304).
The pause branch (line 296), which resets the deadline, is excluded by
the no-pause hypothesis of the claim. -/
def deadlineAfter (start d : ℤ) : Nat → ℤ
  | 0 => start
  | n + 1 => deadlineAfter start d n + d

/-- Claim C5: the per-frame duration is round(1e9 / f) nanoseconds, and in
a run with no pause the deadline after n displayed frames is the loop
start time plus exactly n times that fixed duration. -/
theorem frame_pacing (f : ℚ) (hf : 0 < f) (start : ℤ) (n : Nat) :
    frameDurationNanos f = round ((1000000000 : ℚ) / f)
    ∧ deadlineAfter start (frameDurationNanos f) n = start + n * frameDurationNanos f := by
  refine ⟨rfl, ?_⟩
  induction n with
  | zero => simp [deadlineAfter]
  | succ m ih =>
    rw [deadlineAfter, ih]
    push_cast
    ring

/-- Witness for C5 at f = 30, start = 7, n = 3. -/
theorem frame_pacing_witness :
    frameDurationNanos 30 = round ((1000000000 : ℚ) / 30)
    ∧ deadlineAfter 7 (frameDurationNanos 30) 3 = 7 + 3 * frameDurationNanos 30 := by
  have h := frame_pacing 30 (by norm_num) 7 3
  exact_mod_cast h

/- ------------------------------------------------------------------ -/
/- C6                                                                  -/
/- ------------------------------------------------------------------ -/

/-- cv::Size with int dimensions. -/
structure CvSize where
  width : ℤ
  height : ℤ
deriving DecidableEq

/-- The resize-factor computation of initialize_video (lines 107-127):
dw x dh is the configured maximum viewport (desired_size, default
1024 x 768) and w x h the source resolution; returns the zoom factor and
the new desired_size.  Mirrors the branch on width > desired_size.width
or height > desired_size.height, factor = max(horizontal_factor,
vertical_factor), and the per-dimension std::round. -/
def computeResize (dw dh w h : ℤ) : ℚ × CvSize :=
  if dw < w ∨ dh < h then
    let horizontal_factor : ℚ := (dw : ℚ) / (w : ℚ)
    let vertical_factor : ℚ := (dh : ℚ) / (h : ℚ)
    let factor := max horizontal_factor vertical_factor
    (factor, ⟨round (factor * (w : ℚ)), round (factor * (h : ℚ))⟩)
  else
    (1, ⟨w, h⟩)

theorem le_round_of_le (z : ℤ) (x : ℚ) (hzx : (z : ℚ) ≤ x) : z ≤ round x := by
  rw [round_eq]
  exact Int.le_floor.mpr (by linarith)

theorem round_eq_of_bounds (x : ℚ) (z : ℤ) (h1 : (z : ℚ) ≤ x + 1 / 2)
    (h2 : x + 1 / 2 < (z : ℚ) + 1) : round x = z := by
  rw [round_eq]
  exact Int.floor_eq_iff.mpr ⟨h1, h2⟩

theorem computeResize_of_big (dw dh w h : ℤ) (hbig : dw < w ∨ dh < h) :
    computeResize dw dh w h
      = (max ((dw : ℚ) / (w : ℚ)) ((dh : ℚ) / (h : ℚ)),
         ⟨round (max ((dw : ℚ) / (w : ℚ)) ((dh : ℚ) / (h : ℚ)) * (w : ℚ)),
          round (max ((dw : ℚ) / (w : ℚ)) ((dh : ℚ) / (h : ℚ)) * (h : ℚ))⟩) := by
  simp [computeResize, hbig]

theorem computeResize_of_fits (dw dh w h : ℤ) (hfit : w ≤ dw ∧ h ≤ dh) :
    computeResize dw dh w h = (1, ⟨w, h⟩) := by
  have hcond : ¬ (dw < w ∨ dh < h) := by
    push_neg
    exact hfit
  simp [computeResize, hcond]

/-- Counterexample to claim C6: for source 1920 x 1080 and viewport
1024 x 768 the computed size is 1365 x 768, whose width exceeds the
configured maximum viewport width 1024 — the claim that both dimensions
are ≤ the viewport is false. -/
theorem resize_exceeds_viewport :
    (computeResize 1024 768 1920 1080).2 = ⟨1365, 768⟩
    ∧ ¬ ((computeResize 1024 768 1920 1080).2.width ≤ 1024) := by
  have hmax : max (((1024 : ℤ) : ℚ) / ((1920 : ℤ) : ℚ)) (((768 : ℤ) : ℚ) / ((1080 : ℤ) : ℚ))
      = 32 / 45 := by
    rw [max_eq_right (by norm_num)]
    norm_num
  have hstep := computeResize_of_big 1024 768 1920 1080 (Or.inl (by norm_num))
  rw [hmax] at hstep
  have hw : round ((32 / 45 : ℚ) * ((1920 : ℤ) : ℚ)) = 1365 :=
    round_eq_of_bounds _ _ (by norm_num) (by norm_num)
  have hh : round ((32 / 45 : ℚ) * ((1080 : ℤ) : ℚ)) = 768 :=
    round_eq_of_bounds _ _ (by norm_num) (by norm_num)
  rw [hw, hh] at hstep
  rw [hstep]
  exact ⟨rfl, by norm_num⟩

/-- Claim C6 as amended: the factor is computed once at startup; if the
source already fits inside the viewport the factor is exactly 1 and the
size is unchanged; otherwise the factor is max(target_w/src_w,
target_h/src_h) and the resulting rounded size COVERS the viewport: both
dimensions are ≥ the corresponding viewport dimension, with the dimension
achieving the max exactly equal to its viewport bound (so one dimension
may exceed the viewport; the code scales to cover, not to fit). -/
theorem resize_factor_covers (dw dh w h : ℤ) (hw : 0 < w) (hh : 0 < h) :
    ((w ≤ dw ∧ h ≤ dh) → computeResize dw dh w h = (1, ⟨w, h⟩))
    ∧ ((dw < w ∨ dh < h) →
        (computeResize dw dh w h).1 = max ((dw : ℚ) / (w : ℚ)) ((dh : ℚ) / (h : ℚ))
        ∧ dw ≤ (computeResize dw dh w h).2.width
        ∧ dh ≤ (computeResize dw dh w h).2.height
        ∧ ((computeResize dw dh w h).2.width = dw
            ∨ (computeResize dw dh w h).2.height = dh)) := by
  have hwQ : (0 : ℚ) < (w : ℚ) := by exact_mod_cast hw
  have hhQ : (0 : ℚ) < (h : ℚ) := by exact_mod_cast hh
  refine ⟨computeResize_of_fits dw dh w h, ?_⟩
  intro hbig
  rw [computeResize_of_big dw dh w h hbig]
  set hf : ℚ := (dw : ℚ) / (w : ℚ) with hhf
  set vf : ℚ := (dh : ℚ) / (h : ℚ) with hvf
  refine ⟨rfl, ?_, ?_, ?_⟩
  · apply le_round_of_le
    have h1 : hf ≤ max hf vf := le_max_left _ _
    have h2 : hf * (w : ℚ) ≤ max hf vf * (w : ℚ) :=
      mul_le_mul_of_nonneg_right h1 (le_of_lt hwQ)
    have h3 : hf * (w : ℚ) = (dw : ℚ) :=
      div_mul_cancel₀ _ (ne_of_gt hwQ)
    linarith
  · apply le_round_of_le
    have h1 : vf ≤ max hf vf := le_max_right _ _
    have h2 : vf * (h : ℚ) ≤ max hf vf * (h : ℚ) :=
      mul_le_mul_of_nonneg_right h1 (le_of_lt hhQ)
    have h3 : vf * (h : ℚ) = (dh : ℚ) :=
      div_mul_cancel₀ _ (ne_of_gt hhQ)
    linarith
  · rcases max_choice hf vf with hmax | hmax
    · left
      rw [hmax, hhf, div_mul_cancel₀ _ (ne_of_gt hwQ), round_intCast]
    · right
      rw [hmax, hvf, div_mul_cancel₀ _ (ne_of_gt hhQ), round_intCast]

/-- Witness for C6 (amended) at viewport 1024 x 768 and source 1920 x 1080:
both computed dimensions are at least the viewport dimensions. -/
theorem resize_factor_covers_witness :
    (1024 : ℤ) ≤ (computeResize 1024 768 1920 1080).2.width
    ∧ (768 : ℤ) ≤ (computeResize 1024 768 1920 1080).2.height := by
  have h := (resize_factor_covers 1024 768 1920 1080 (by norm_num)
    (by norm_num)).2 (Or.inl (by norm_num))
  exact ⟨h.2.1, h.2.2.1⟩

/- ------------------------------------------------------------------ -/
/- C7                                                                  -/
/- ------------------------------------------------------------------ -/

/-- The progress-report guard of show_video (line 216):
frame_counter + 1 >= total_frames or frame_counter % fps_rounded == 0.
The C++ `or` short-circuits, so the modulo is only evaluated when the
first disjunct is false; a modulo with fps_rounded = 0 is undefined
behaviour, modelled as none. -/
def progressCheck (total_frames fps_rounded frame_counter : Nat) : Option Bool :=
  if total_frames ≤ frame_counter + 1 then some true
  else if fps_rounded = 0 then none
  else some (decide (frame_counter % fps_rounded = 0))

/-- The frame indices at which a progress report is emitted during a full
run to end of stream: the loop processes exactly the frame indices
0, ..., total_frames - 1 (the read after the last frame yields an empty
mat and breaks the loop before the guard is reached). -/
def reportFrames (total_frames fps_rounded : Nat) : List Nat :=
  (List.range total_frames).filter fun f => progressCheck total_frames fps_rounded f == some true

/-- Counterexample to claim C7: with fps = 30 and total_frames = 90 the
reports are emitted at frame indices 0, 30, 60 and 89 — the final report
happens at frame index 89 (the last processed frame), and no report is
emitted at frame index 90, which is never processed. -/
theorem no_report_at_frame_90 :
    reportFrames 90 30 = [0, 30, 60, 89] ∧ 90 ∉ reportFrames 90 30 := by decide

/-- Claim C7 as amended: with fps = 30 and total_frames = 90 exactly 3
progress reports occur at frame indices that are multiples of 30 (0, 30
and 60), plus one final report at frame index 89, the last frame; in
general a report is emitted at a frame exactly when the frame index is a
multiple of round(fps) or the frame is the final one
(frame_counter + 1 ≥ total_frames). -/
theorem progress_reports (total_frames fps_rounded frame_counter : Nat)
    (hfps : 1 ≤ fps_rounded) :
    reportFrames 90 30 = [0, 30, 60, 89]
    ∧ (progressCheck total_frames fps_rounded frame_counter = some true
        ↔ (total_frames ≤ frame_counter + 1 ∨ frame_counter % fps_rounded = 0)) := by
  constructor
  · decide
  · unfold progressCheck
    by_cases h1 : total_frames ≤ frame_counter + 1
    · simp [h1]
    · have h2 : fps_rounded ≠ 0 := by omega
      simp [h1, h2]

/-- Witness for C7 (amended): the report at frame index 60 of the
fps = 30, total_frames = 90 scenario. -/
theorem progress_reports_witness :
    progressCheck 90 30 60 = some true ↔ (90 ≤ 61 ∨ 60 % 30 = 0) :=
  (progress_reports 90 30 60 (by norm_num)).2

/- ------------------------------------------------------------------ -/
/- C8                                                                  -/
/- ------------------------------------------------------------------ -/

/-- The exceptions the program can raise: std::invalid_argument from
initialize_video on open failure (line 78), std::runtime_error from
show_video on the ESC quit key (line 300) — both derive std::exception —
and any non-std exception, caught by the catch-all in main (line 343). -/
inductive ProgException where
  | invalidArgument (msg : String)
  | runtimeError (msg : String)
  | unknownException
deriving DecidableEq

/-- Filename selection in main (lines 316-323): argv[1] when argc > 1,
otherwise the default-constructed empty string. -/
def selectFilename (args : List String) : String :=
  match args with
  | [] => ""
  | a :: _ => a

/-- The try block of main (lines 314-337): initialize_video throws
invalid_argument when the file fails to open; otherwise the rest of the
run is abstracted by play, which either completes or raises an
exception (user quit, or anything else). -/
def runBody (opens : String → Bool) (play : Except ProgException Unit)
    (args : List String) : Except ProgException Unit :=
  let filename := selectFilename args
  if opens filename then play
  else Except.error (ProgException.invalidArgument ("failed to open " ++ filename))

/-- The catch clauses of main (lines 338-349): std::exception maps to
exit code 1, anything else to 2, normal completion to 0. -/
def exitCode : Except ProgException Unit → Nat
  | Except.ok _ => 0
  | Except.error (ProgException.invalidArgument _) => 1
  | Except.error (ProgException.runtimeError _) => 1
  | Except.error ProgException.unknownException => 2

/-- The process exit code of a whole run of main. -/
def mainExit (opens : String → Bool) (play : Except ProgException Unit)
    (args : List String) : Nat :=
  exitCode (runBody opens play args)

/-- Claim C8: exit code 0 on normal completion; 1 on every recognized
failure — open failure (including the no-argument case, where the empty
path fails to open) and user-requested quit; 2 on any unrecognized
failure. -/
theorem exit_codes (opens : String → Bool) (args : List String) (m : String) :
    (opens (selectFilename args) = true → mainExit opens (Except.ok ()) args = 0)
    ∧ (opens (selectFilename args) = false →
        ∀ play, mainExit opens play args = 1)
    ∧ (opens "" = false → ∀ play, mainExit opens play [] = 1)
    ∧ (opens (selectFilename args) = true →
        mainExit opens (Except.error (ProgException.runtimeError m)) args = 1)
    ∧ (opens (selectFilename args) = true →
        mainExit opens (Except.error ProgException.unknownException) args = 2) := by
  refine ⟨?_, ?_, ?_, ?_, ?_⟩
  · intro hopen
    simp [mainExit, runBody, exitCode, hopen]
  · intro hopen play
    simp [mainExit, runBody, exitCode, hopen]
  · intro hopen play
    have hsel : selectFilename [] = "" := rfl
    simp [mainExit, runBody, exitCode, hsel, hopen]
  · intro hopen
    simp [mainExit, runBody, exitCode, hopen]
  · intro hopen
    simp [mainExit, runBody, exitCode, hopen]

/-- Witness for C8: with no CLI argument and a file system on which the
empty path does not open, the exit code is 1. -/
theorem exit_codes_witness :
    mainExit (fun s => !(s == "")) (Except.ok ()) [] = 1 :=
  (exit_codes (fun s => !(s == "")) [] "x").2.2.1 rfl (Except.ok ())

/- ------------------------------------------------------------------ -/
/- C9                                                                  -/
/- ------------------------------------------------------------------ -/

/-- cap.set(CAP_PROP_POS_FRAMES, p): seeks the capture read position. -/
def capSeek (p : Nat) (_pos : Nat) : Nat := p

/-- cap >> mat: reads the frame at the current position and advances the
position; returns (index of the frame delivered, new position). -/
def capRead (pos : Nat) : Nat × Nat := (pos, pos + 1)

/-- get_first_frame (lines 134-149), state-level: seek to 0 (line 136),
read one frame (line 138), seek back to 0 (line 139).  Returns (index of
the frame delivered for the preview, final read position). -/
def getFirstFrame (pos : Nat) : Nat × Nat :=
  let p1 := capSeek 0 pos
  let fr := capRead p1
  let p2 := capSeek 0 fr.2
  (fr.1, p2)

/-- Counterexample to claim C9: the read position after get_first_frame
is 0, not past frame 0 — the source IS rewound after the preview, in the
tracking variant too (enable_object_tracking is a constant true and
get_first_frame is unconditional). -/
theorem first_frame_position_is_zero :
    (getFirstFrame 0).2 = 0 ∧ ¬ (0 < (getFirstFrame 0).2) := by decide

/-- Claim C9 as amended: get_first_frame seeks back to position 0 after
decoding frame 0, so playback re-reads frame 0: the first frame delivered
to show_video is the same frame 0 the trackers were initialized on, and
each tracker receives its first update call on that same frame. -/
theorem first_frame_reread (pos : Nat) :
    getFirstFrame pos = (0, 0)
    ∧ (capRead (getFirstFrame pos).2).1 = (getFirstFrame pos).1 := by
  simp [getFirstFrame, capSeek, capRead]

/- ------------------------------------------------------------------ -/
/- C10                                                                 -/
/- ------------------------------------------------------------------ -/

/-- Claim C10: with fps_rounded = round(fps) and any source frame rate
0 < fps < 1/2, round(fps) is 0 and the progress guard of line 216
performs a modulo by zero on the very first frame of any video with at
least two frames (the short-circuiting first disjunct only protects the
final frame); the guard is defined on every frame whenever
fps_rounded ≥ 1, so fps > 0 alone does not make the loop total. -/
theorem modulo_by_zero_hazard (fps : ℚ) (h0 : 0 < fps) (hhalf : fps < 1 / 2)
    (total_frames : Nat) (htotal : 2 ≤ total_frames) :
    fpsRounded fps = 0
    ∧ progressCheck total_frames (fpsRounded fps) 0 = none
    ∧ (∀ fps_rounded frame_counter, 1 ≤ fps_rounded →
        progressCheck total_frames fps_rounded frame_counter ≠ none) := by
  have hround : round fps = 0 := by
    rw [round_eq_zero_iff]
    constructor
    · linarith
    · exact hhalf
  have hfr : fpsRounded fps = 0 := by
    rw [fpsRounded, hround]
    rfl
  refine ⟨hfr, ?_, ?_⟩
  · rw [hfr]
    have h1 : ¬ (total_frames ≤ 0 + 1) := by omega
    simp [progressCheck, h1]
  · intro fps_rounded frame_counter hge
    have h2 : fps_rounded ≠ 0 := by omega
    unfold progressCheck
    by_cases h1 : total_frames ≤ frame_counter + 1
    · simp [h1]
    · simp [h1, h2]

/-- Witness for C10 at fps = 1/4 and a two-frame video: round(1/4) = 0
and the progress guard at frame 0 is a modulo by zero. -/
theorem modulo_by_zero_hazard_witness :
    fpsRounded (1 / 4 : ℚ) = 0 ∧ progressCheck 2 (fpsRounded (1 / 4 : ℚ)) 0 = none :=
  ⟨(modulo_by_zero_hazard (1 / 4) (by norm_num) (by norm_num) 2 (by norm_num)).1,
   (modulo_by_zero_hazard (1 / 4) (by norm_num) (by norm_num) 2 (by norm_num)).2.1⟩

end CSRTExample
